import Mathlib

/-!
Verification of the napi-rs CLI core (crates/cli): the build command's
flag-to-cargo-argument mapping, environment preparation, and exit-code
dispatch, shallowly embedded from `src/crates/cli/src/build.rs` and
`src/crates/cli/src/main.rs`.

Randomness (`thread_rng`), the system temporary directory (`temp_dir()`)
and the host default target (`get_system_default_target()`, whose body
lives outside the provided sources) are modelled as explicit parameters:
a run of the program is a pure function of the parsed command plus these
environment inputs.
-/

namespace NapiCli

/-- Mirror of `clap_cargo::Features`: the feature-selection flags parsed
from the command line. -/
structure Features where
  all_features : Bool
  no_default_features : Bool
  features : List String
deriving Repr, DecidableEq

/-- Mirror of `clap_cargo::Workspace`: the workspace/package-selection
flags parsed from the command line. -/
structure Workspace where
  all : Bool
  workspace : Bool
  package : List String
  exclude : List String
deriving Repr, DecidableEq

/-- Mirror of `BuildCommand` in `build.rs`: the parsed build request.
Paths (`PathBuf`) are modelled as strings. -/
structure BuildCommand where
  target : Option String
  js_binding : Option String
  disable_js_binding : Bool
  cwd : Option String
  dest : Option String
  strip : Bool
  pipe : Option String
  release : Bool
  verbose : Bool
  features : Features
  workspace : Workspace
  disable_windows_x32_optimize : Bool
  zig : Bool
  zip_abi_suffix : Option String
  intermediate_type_file : String
  bypass_flags : List String
deriving Repr, DecidableEq

/-- Mirror of `std::process::Command` as the build command uses it:
a program name, an ordered argument list, ordered environment-variable
assignments, and an optional working directory. -/
structure Cmd where
  program : String
  args : List String
  envs : List (String × String)
  current_dir : Option String
deriving Repr, DecidableEq

/-- The character `{:02X}` uses for one hex digit: `0`-`9` then `A`-`F`. -/
def hexDigit (n : Nat) : Char :=
  if n < 10 then Char.ofNat (48 + n) else Char.ofNat (55 + n)

/-- The two characters `write!(hex_string, "{:02X}", byte)` appends for
one byte (bytes are < 256, so exactly two digits). -/
def byteHexChars (b : Nat) : List Char :=
  [hexDigit (b / 16), hexDigit (b % 16)]

/-- The characters of the hex string built by the `for byte in data` loop
in `get_intermediate_type_file`. -/
def hexChars : List Nat → List Char
  | [] => []
  | b :: rest => byteHexChars b ++ hexChars rest

/-- The `hex_string` local of `get_intermediate_type_file`. -/
def hex_string (data : List Nat) : String :=
  String.mk (hexChars data)

/-- Mirror of `get_intermediate_type_file` in `build.rs`: the 16 random
bytes produced by `rng.fill_bytes` and the system temporary directory are
passed in explicitly; `PathBuf::join` is modelled as inserting `/`. -/
def get_intermediate_type_file (tmpdir : String) (data : List Nat) : String :=
  tmpdir ++ "/" ++ ("type_def." ++ hex_string data ++ ".tmp")

/-- Mirror of `BuildCommand::set_cwd`. -/
def set_cwd (self : BuildCommand) (cmd : Cmd) : Cmd :=
  match self.cwd with
  | some cwd => { cmd with current_dir := some cwd }
  | none => cmd

/-- The `args` local computed by `BuildCommand::set_features`. -/
def features_args (f : Features) : List String :=
  if f.all_features then ["--all-features"]
  else if f.no_default_features then ["--no-default-features"]
  else if !f.features.isEmpty then "--features" :: f.features
  else []

/-- Mirror of `BuildCommand::set_features`: appends the feature flags to
the command's arguments. -/
def set_features (self : BuildCommand) (cmd : Cmd) : Cmd :=
  { cmd with args := cmd.args ++ features_args self.features }

/-- The `args` local computed by `BuildCommand::set_workspace`. -/
def workspace_args (w : Workspace) : List String :=
  let args :=
    if w.all || w.workspace then ["--workspace"]
    else if !w.package.isEmpty then "-p" :: w.package
    else []
  if !w.exclude.isEmpty then args ++ "--exclude" :: w.exclude else args

/-- Mirror of `BuildCommand::set_workspace`: appends the workspace flags
to the command's arguments. -/
def set_workspace (self : BuildCommand) (cmd : Cmd) : Cmd :=
  { cmd with args := cmd.args ++ workspace_args self.workspace }

/-- Mirror of `BuildCommand::set_target`. The host's default target
triple (`get_system_default_target()`, defined outside the provided
sources) is passed in as `defaultTarget`. When an explicit target is
present it is emitted as `--target <t>`; otherwise the default is stored
back into the request and nothing is emitted. -/
def set_target (self : BuildCommand) (defaultTarget : String) (cmd : Cmd) :
    BuildCommand × Cmd :=
  match self.target with
  | some t => (self, { cmd with args := cmd.args ++ ["--target", t] })
  | none => ({ self with target := some defaultTarget }, cmd)

/-- The `envs` vector computed by `BuildCommand::set_envs` before it is
applied to the command. -/
def envs_list (self : BuildCommand) : List (String × String) :=
  let envs := [("TYPE_DEF_TMP_PATH", self.intermediate_type_file)]
  if self.disable_windows_x32_optimize &&
      self.target == some "i686-pc-windows-msvc" then
    envs ++
      [("CARGO_PROFILE_DEBUG_CODEGEN_UNITS", "256"),
       ("CARGO_PROFILE_RELEASE_CODEGEN_UNITS", "256"),
       ("CARGO_PROFILE_RELEASE_LTO", "\"off\"")]
  else envs

/-- Mirror of `BuildCommand::set_envs`: applies each computed pair with
`cmd.env(k, v)`, modelled as appending to the environment list. -/
def set_envs (self : BuildCommand) (cmd : Cmd) : Cmd :=
  { cmd with envs := cmd.envs ++ envs_list self }

/-- Mirror of `BuildCommand::set_bypass_args`: appends the passthrough
flags verbatim. -/
def set_bypass_args (self : BuildCommand) (cmd : Cmd) : Cmd :=
  { cmd with args := cmd.args ++ self.bypass_flags }

/-- Mirror of `BuildCommand::run`: stores the freshly generated
intermediate type file into the request, builds `cargo build`, and
applies the six setters in source order. Returns the mutated request and
the composed command (the subsequent `spawn` is outside the embedding). -/
def run (self : BuildCommand) (tmpdir : String) (rngBytes : List Nat)
    (defaultTarget : String) : BuildCommand × Cmd :=
  let self := { self with
    intermediate_type_file := get_intermediate_type_file tmpdir rngBytes }
  let cmd : Cmd := { program := "cargo", args := ["build"], envs := [],
                     current_dir := none }
  let cmd := set_cwd self cmd
  let cmd := set_features self cmd
  let cmd := set_workspace self cmd
  let sc := set_target self defaultTarget cmd
  let self := sc.1
  let cmd := sc.2
  let cmd := set_envs self cmd
  let cmd := set_bypass_args self cmd
  (self, cmd)

/-- Mirror of `CommandResult` in the CLI utilities: `Result<(), ()>`
(as forced by `execute` returning `Ok(())` and the dispatcher's
`unwrap_or_else(|()| ...)`). -/
def CommandResult : Type := Except Unit Unit

/-- The two subcommands of `main.rs`, each carrying the result its
`execute` reports (for `Build`, `execute` in `build.rs` always returns
`Ok(())`; `NewCommand` is outside the provided sources, so its result is
abstract). -/
inductive SubCommand where
  | new : CommandResult → SubCommand
  | build : CommandResult → SubCommand

/-- The `execute()` result of the selected subcommand inside the
dispatch of the `run_command!` macro. -/
def execute_result : SubCommand → CommandResult
  | SubCommand.new r => r
  | SubCommand.build r => r

/-- The process exit code that `main` produces: the `run_command!` macro
expands to `execute().unwrap_or_else(|()| std::process::exit(1))`, and
`main` returning normally exits with code 0. -/
def main_exit_code (c : SubCommand) : Nat :=
  match execute_result c with
  | Except.ok _ => 0
  | Except.error _ => 1

/-- The `--target` arguments `set_target` contributes, as a function of
the request's optional target. -/
def target_args : Option String → List String
  | some t => ["--target", t]
  | none => []

/-- A character is an uppercase hexadecimal digit. -/
def isHexUpper (c : Char) : Bool :=
  ("0123456789ABCDEF".data).contains c

/-- A build request with every option at its parsed default (no flags
given on the command line). -/
def emptyBuild : BuildCommand :=
  { target := none, js_binding := none, disable_js_binding := false,
    cwd := none, dest := none, strip := false, pipe := none,
    release := false, verbose := false,
    features := { all_features := false, no_default_features := false,
                  features := [] },
    workspace := { all := false, workspace := false, package := [],
                   exclude := [] },
    disable_windows_x32_optimize := false, zig := false,
    zip_abi_suffix := none, intermediate_type_file := "",
    bypass_flags := [] }

/-- The command state just after `Command::new("cargo")` and
`cmd.arg("build")`. -/
def initCmd : Cmd :=
  { program := "cargo", args := ["build"], envs := [], current_dir := none }

/-- A request with only the disable-windows-x32-optimize switch set and
no explicit target. -/
def c4Build : BuildCommand :=
  { emptyBuild with disable_windows_x32_optimize := true }

/-- A request with the disable-windows-x32-optimize switch set and the
explicit target `i686-pc-windows-msvc`: the workaround fires. -/
def winBuild : BuildCommand :=
  { emptyBuild with disable_windows_x32_optimize := true,
                    target := some "i686-pc-windows-msvc" }

/-- The request parsed from
`napi build --release --target x86_64-unknown-linux-gnu -p crate_a -- --locked`. -/
def scenarioBuild : BuildCommand :=
  { emptyBuild with
      release := true,
      target := some "x86_64-unknown-linux-gnu",
      workspace := { all := false, workspace := false,
                     package := ["crate_a"], exclude := [] },
      bypass_flags := ["--locked"] }

/-! Helper lemmas about the pipeline. -/

theorem set_cwd_args (s : BuildCommand) (c : Cmd) :
    (set_cwd s c).args = c.args := by
  cases h : s.cwd <;> simp [set_cwd, h]

theorem set_cwd_envs (s : BuildCommand) (c : Cmd) :
    (set_cwd s c).envs = c.envs := by
  cases h : s.cwd <;> simp [set_cwd, h]

theorem set_target_fst (s : BuildCommand) (d : String) (c : Cmd) :
    (set_target s d c).1 = { s with target := some (s.target.getD d) } := by
  rcases s with ⟨tgt, jb, djb, cw, de, st, pi, re, ve, fe, ws, dw, zi, za, it, bf⟩
  cases tgt <;> simp [set_target]

theorem set_target_snd (s : BuildCommand) (d : String) (c : Cmd) :
    (set_target s d c).2 = { c with args := c.args ++ target_args s.target } := by
  cases h : s.target <;> simp [set_target, target_args, h]

theorem run_fst_target (self : BuildCommand) (tmpdir dt : String)
    (rng : List Nat) :
    (run self tmpdir rng dt).1.target = some (self.target.getD dt) := by
  cases h : self.target <;>
    simp [run, set_cwd_envs, set_features, set_workspace, set_target,
          set_envs, set_bypass_args, h]

theorem run_args (self : BuildCommand) (tmpdir dt : String) (rng : List Nat) :
    (run self tmpdir rng dt).2.args =
      ["build"] ++ features_args self.features ++
        workspace_args self.workspace ++ target_args self.target ++
        self.bypass_flags := by
  cases hc : self.cwd <;> cases ht : self.target <;>
    simp [run, set_cwd, set_features, set_workspace, set_target, set_envs,
          set_bypass_args, target_args, hc, ht]

theorem run_envs (self : BuildCommand) (tmpdir dt : String) (rng : List Nat) :
    (run self tmpdir rng dt).2.envs =
      ("TYPE_DEF_TMP_PATH", get_intermediate_type_file tmpdir rng) ::
        (if self.disable_windows_x32_optimize = true ∧
            self.target.getD dt = "i686-pc-windows-msvc" then
          [("CARGO_PROFILE_DEBUG_CODEGEN_UNITS", "256"),
           ("CARGO_PROFILE_RELEASE_CODEGEN_UNITS", "256"),
           ("CARGO_PROFILE_RELEASE_LTO", "\"off\"")]
        else []) := by
  cases hc : self.cwd <;> cases ht : self.target <;>
    cases hd : self.disable_windows_x32_optimize <;>
    simp [run, set_cwd, set_features, set_workspace, set_target, set_envs,
          set_bypass_args, envs_list, hc, hd, ht] <;>
    split <;> rfl

theorem hexChars_length (l : List Nat) :
    (hexChars l).length = 2 * l.length := by
  induction l with
  | nil => rfl
  | cons b rest ih =>
    simp [hexChars, byteHexChars, ih]
    omega

theorem hexDigit_isHexUpper : ∀ n, n < 16 → isHexUpper (hexDigit n) = true := by
  decide

theorem hexChars_isHexUpper (l : List Nat) (h : ∀ b ∈ l, b < 256) :
    ∀ c ∈ hexChars l, isHexUpper c = true := by
  induction l with
  | nil => simp [hexChars]
  | cons b rest ih =>
    have hb : b < 256 := h b (List.mem_cons_self b rest)
    have hrest : ∀ x ∈ rest, x < 256 :=
      fun x hx => h x (List.mem_cons_of_mem b hx)
    intro c hc
    simp only [hexChars, byteHexChars, List.mem_append, List.mem_cons,
      List.not_mem_nil, or_false] at hc
    rcases hc with (h1 | h1) | h1
    · exact h1 ▸ hexDigit_isHexUpper _ (by omega)
    · exact h1 ▸ hexDigit_isHexUpper _ (by omega)
    · exact ih hrest c h1

/-! Claim theorems. -/

/-- Claim C1: for every feature-selection input, the feature mapping
emits exactly one of a single `--all-features` flag, a single
`--no-default-features` flag, `--features` followed by each listed name,
or nothing, with priority all-features first, then no-default-features,
then a non-empty explicit list, else nothing. The guards of the four
disjuncts are pairwise contradictory, so exactly one disjunct applies to
any input. -/
theorem c1_feature_mapping (f : Features) :
    (f.all_features = true ∧ features_args f = ["--all-features"]) ∨
    (f.all_features = false ∧ f.no_default_features = true ∧
      features_args f = ["--no-default-features"]) ∨
    (f.all_features = false ∧ f.no_default_features = false ∧
      f.features ≠ [] ∧ features_args f = "--features" :: f.features) ∨
    (f.all_features = false ∧ f.no_default_features = false ∧
      f.features = [] ∧ features_args f = []) := by
  rcases f with ⟨a, nd, fs⟩
  cases a <;> cases nd <;> cases fs <;> simp [features_args]

/-- Claim C2: the three compatibility environment variables are present
on the composed command if and only if the disable-windows-x32-optimize
switch is set and the resolved target (explicit, or the stored host
default) equals `i686-pc-windows-msvc`. -/
theorem c2_windows_x32_envs (self : BuildCommand) (tmpdir dt : String)
    (rng : List Nat) :
    (("CARGO_PROFILE_DEBUG_CODEGEN_UNITS", "256") ∈
        (run self tmpdir rng dt).2.envs ∧
     ("CARGO_PROFILE_RELEASE_CODEGEN_UNITS", "256") ∈
        (run self tmpdir rng dt).2.envs ∧
     ("CARGO_PROFILE_RELEASE_LTO", "\"off\"") ∈
        (run self tmpdir rng dt).2.envs) ↔
    (self.disable_windows_x32_optimize = true ∧
     self.target.getD dt = "i686-pc-windows-msvc") := by
  rw [run_envs]
  by_cases hcond : self.disable_windows_x32_optimize = true ∧
      self.target.getD dt = "i686-pc-windows-msvc" <;>
    simp [hcond]

/-- Claim C3: for every workspace-selection input, the `--workspace` flag
and the `-p` package list are mutually exclusive, `--workspace` wins when
both are requested, and `--exclude` followed by each excluded name is
appended for every non-empty exclude list regardless of which branch
fired. -/
theorem c3_workspace_mapping (w : Workspace) :
    ((w.all || w.workspace) = true ∧
      workspace_args w = "--workspace" ::
        (if w.exclude.isEmpty then [] else "--exclude" :: w.exclude)) ∨
    ((w.all || w.workspace) = false ∧ w.package ≠ [] ∧
      workspace_args w = ("-p" :: w.package) ++
        (if w.exclude.isEmpty then [] else "--exclude" :: w.exclude)) ∨
    ((w.all || w.workspace) = false ∧ w.package = [] ∧
      workspace_args w =
        (if w.exclude.isEmpty then [] else "--exclude" :: w.exclude)) := by
  rcases w with ⟨a, ws, p, e⟩
  cases a <;> cases ws <;> cases p <;> cases e <;> simp [workspace_args]

/-- Claim C4, counterexample: with no explicit target (all options at
their defaults) the composed argument list contains no target flag at
all, refuting the claim that the target flag is present when the target
was resolved as the host default. -/
theorem c4_counterexample :
    "--target" ∉ (run emptyBuild "/tmp" (List.replicate 16 0)
      "x86_64-unknown-linux-gnu").2.args := by
  decide

/-- Claim C4, amended: when no explicit target triple is supplied, the
resolved host default is stored into the request and the
target-conditional environment logic observes it, but no target flag is
emitted into the composed argument list; the target flag appears in the
subprocess arguments only when the target was explicit. -/
theorem c4_default_target (self : BuildCommand) (tmpdir dt : String)
    (rng : List Nat) (h : self.target = none) :
    (run self tmpdir rng dt).1.target = some dt ∧
    (run self tmpdir rng dt).2.args =
      ["build"] ++ features_args self.features ++
        workspace_args self.workspace ++ self.bypass_flags ∧
    ((("CARGO_PROFILE_DEBUG_CODEGEN_UNITS", "256") ∈
        (run self tmpdir rng dt).2.envs) ↔
      (self.disable_windows_x32_optimize = true ∧
        dt = "i686-pc-windows-msvc")) := by
  refine ⟨?_, ?_, ?_⟩
  · rw [run_fst_target, h, Option.getD_none]
  · rw [run_args, h]
    simp [target_args]
  · rw [run_envs, h]
    by_cases hcond : self.disable_windows_x32_optimize = true ∧
        dt = "i686-pc-windows-msvc" <;>
      simp [hcond]

/-- Claim C4, witness for the amended theorem at a concrete input: the
switch is set, no target is given, and the host default is the defect
triple, so the stored default drives the environment logic while the
argument list stays `cargo build` with no target flag. -/
theorem c4_default_target_witness :
    (run c4Build "/tmp" (List.replicate 16 0)
        "i686-pc-windows-msvc").1.target = some "i686-pc-windows-msvc" ∧
    (run c4Build "/tmp" (List.replicate 16 0)
        "i686-pc-windows-msvc").2.args =
      ["build"] ++ features_args c4Build.features ++
        workspace_args c4Build.workspace ++ c4Build.bypass_flags ∧
    ((("CARGO_PROFILE_DEBUG_CODEGEN_UNITS", "256") ∈
        (run c4Build "/tmp" (List.replicate 16 0)
          "i686-pc-windows-msvc").2.envs) ↔
      (c4Build.disable_windows_x32_optimize = true ∧
        "i686-pc-windows-msvc" = "i686-pc-windows-msvc")) :=
  c4_default_target c4Build "/tmp" "i686-pc-windows-msvc"
    (List.replicate 16 0) rfl

/-- Claim C5, counterexample: when the workaround fires, the environment
keys set on the command are exactly the intermediate-file variable and
the three workaround variables; no variable overrides link-time
optimization for the debug profile (`CARGO_PROFILE_DEBUG_LTO` is
absent), refuting the claim that the three variables disable link-time
optimization for both profiles. -/
theorem c5_counterexample :
    ((run winBuild "/tmp" (List.replicate 16 255) "host").2.envs.map
        Prod.fst) =
      ["TYPE_DEF_TMP_PATH", "CARGO_PROFILE_DEBUG_CODEGEN_UNITS",
       "CARGO_PROFILE_RELEASE_CODEGEN_UNITS",
       "CARGO_PROFILE_RELEASE_LTO"] ∧
    "CARGO_PROFILE_DEBUG_LTO" ∉
      ((run winBuild "/tmp" (List.replicate 16 255) "host").2.envs.map
        Prod.fst) := by
  constructor <;> decide

/-- Claim C5, amended: when the 32-bit-Windows workaround fires, exactly
three additional environment variables are set beyond the always-present
intermediate-file variable; they raise the code-generation-unit count to
256 for both the debug and the release profiles and disable link-time
optimization for the release profile. -/
theorem c5_workaround_envs (self : BuildCommand) (cmd : Cmd)
    (h1 : self.disable_windows_x32_optimize = true)
    (h2 : self.target = some "i686-pc-windows-msvc") :
    (set_envs self cmd).envs = cmd.envs ++
      [("TYPE_DEF_TMP_PATH", self.intermediate_type_file),
       ("CARGO_PROFILE_DEBUG_CODEGEN_UNITS", "256"),
       ("CARGO_PROFILE_RELEASE_CODEGEN_UNITS", "256"),
       ("CARGO_PROFILE_RELEASE_LTO", "\"off\"")] := by
  simp [set_envs, envs_list, h1, h2]

/-- Claim C5, witness for the amended theorem at a concrete input. -/
theorem c5_workaround_envs_witness :
    (set_envs winBuild initCmd).envs = initCmd.envs ++
      [("TYPE_DEF_TMP_PATH", winBuild.intermediate_type_file),
       ("CARGO_PROFILE_DEBUG_CODEGEN_UNITS", "256"),
       ("CARGO_PROFILE_RELEASE_CODEGEN_UNITS", "256"),
       ("CARGO_PROFILE_RELEASE_LTO", "\"off\"")] :=
  c5_workaround_envs winBuild initCmd rfl rfl

/-- Claim C6: on every build invocation, exactly one environment
variable with the intermediate-file key is set on the child command, and
its value is a path under the system temporary directory whose file name
is `type_def.` followed by the 32-character uppercase-hexadecimal
rendering `hexChars rng` of the 16 generated bytes and `.tmp`. -/
theorem c6_type_def_env (self : BuildCommand) (tmpdir dt : String)
    (rng : List Nat) (hlen : rng.length = 16)
    (hb : ∀ b ∈ rng, b < 256) :
    ((run self tmpdir rng dt).2.envs.countP
      (fun e => e.1 == "TYPE_DEF_TMP_PATH")) = 1 ∧
    (hexChars rng).length = 32 ∧
    (∀ c ∈ hexChars rng, isHexUpper c = true) ∧
    ("TYPE_DEF_TMP_PATH",
      tmpdir ++ "/" ++ ("type_def." ++ String.mk (hexChars rng) ++ ".tmp")) ∈
      (run self tmpdir rng dt).2.envs := by
  refine ⟨?_, ?_, hexChars_isHexUpper rng hb, ?_⟩
  · rw [run_envs]
    by_cases hcond : self.disable_windows_x32_optimize = true ∧
        self.target.getD dt = "i686-pc-windows-msvc" <;>
      simp [hcond, List.countP_cons]
  · rw [hexChars_length, hlen]
  · rw [run_envs]
    exact List.mem_cons_self _ _

/-- Claim C6, witness at a concrete input (16 zero bytes). -/
theorem c6_type_def_env_witness :
    ((run emptyBuild "/tmp" (List.replicate 16 0) "host").2.envs.countP
      (fun e => e.1 == "TYPE_DEF_TMP_PATH")) = 1 ∧
    (hexChars (List.replicate 16 0)).length = 32 ∧
    (∀ c ∈ hexChars (List.replicate 16 0), isHexUpper c = true) ∧
    ("TYPE_DEF_TMP_PATH",
      "/tmp" ++ "/" ++
        ("type_def." ++ String.mk (hexChars (List.replicate 16 0)) ++
          ".tmp")) ∈
      (run emptyBuild "/tmp" (List.replicate 16 0) "host").2.envs :=
  c6_type_def_env emptyBuild "/tmp" "host" (List.replicate 16 0)
    (by decide) (by decide)

/-- Claim C7: passthrough arguments are appended verbatim and last to
the composed argument list for every request, and the concrete
invocation `--release --target x86_64-unknown-linux-gnu -p crate_a --
--locked` composes exactly
`build -p crate_a --target x86_64-unknown-linux-gnu --locked`. -/
theorem c7_bypass_args :
    (∀ (self : BuildCommand) (tmpdir dt : String) (rng : List Nat),
      (run self tmpdir rng dt).2.args =
        (run { self with bypass_flags := [] } tmpdir rng dt).2.args ++
          self.bypass_flags) ∧
    (run scenarioBuild "/tmp" (List.replicate 16 0) "host").2.args =
      ["build", "-p", "crate_a", "--target", "x86_64-unknown-linux-gnu",
       "--locked"] := by
  constructor
  · intro self tmpdir dt rng
    rw [run_args, run_args]
    simp
  · decide

/-- Claim C8: target resolution leaves an explicit target unchanged,
stores the host default into the request's target field when none was
given (so every later step observes a populated target), modifies no
other request field, and contributes `--target <t>` to the arguments
exactly when the target was explicit. -/
theorem c8_set_target_frame (self : BuildCommand) (dt : String)
    (cmd : Cmd) :
    (set_target self dt cmd).1 =
      { self with target := some (self.target.getD dt) } ∧
    (set_target self dt cmd).2 =
      { cmd with args := cmd.args ++ target_args self.target } :=
  ⟨set_target_fst self dt cmd, set_target_snd self dt cmd⟩

/-- Claim C9: the CLI exits with code 0 exactly when the selected
subcommand's `execute` reports success, and with code 1 exactly when it
reports failure. -/
theorem c9_exit_code (c : SubCommand) :
    (main_exit_code c = 0 ↔ execute_result c = Except.ok ()) ∧
    (main_exit_code c = 1 ↔ execute_result c = Except.error ()) := by
  rcases c with r | r <;> rcases r with u | u <;> cases u <;>
    simp [main_exit_code, execute_result]

/-- Claim C10: two build requests that differ only in the release,
strip, dest, js-binding, disable-js-binding, pipe, zig, or
zig-abi-suffix settings compose the same subprocess invocation: program,
argument list, environment variables, and working directory are all
identical. -/
theorem c10_irrelevant_switches (a : BuildCommand) (tmpdir dt : String)
    (rng : List Nat) (r s djb z : Bool) (d jb p zs : Option String) :
    (run { a with
        release := r, strip := s, dest := d, js_binding := jb,
        disable_js_binding := djb, pipe := p, zig := z,
        zip_abi_suffix := zs } tmpdir rng dt).2 =
    (run a tmpdir rng dt).2 := by
  rcases a with ⟨tgt, jb0, djb0, cw, de0, st0, pi0, re0, ve0, fe0, ws0, dw0, zi0, za0, it0, bf0⟩
  cases tgt <;> cases cw <;> rfl

end NapiCli
